import Mathlib

/-!
Verification of the push2talk daemon (cyrinux/push2talk).

The repository contains two variants of the same design:
* the modular, threaded variant: `src/libinput/mod.rs` (input worker /
  key-chord tracker) and `src/pulseaudio/mod.rs` (mute actuator), and
* the legacy single-file variant: `src/main.rs`.

This file shallowly embeds the pure cores of both variants:
* the key-chord tracker (`Tracker.update`, `Tracker.should_mute`,
  `Tracker.handle`, from `Controller::update`, `Controller::should_mute`,
  `Controller::handle` in `src/libinput/mod.rs`, which coincide with the
  `check_keybind` closure and `event_handler` in `src/main.rs`),
* one iteration of the input worker's poll loop (`run_iter`, from
  `Controller::run` in `src/libinput/mod.rs`, lines 75-108),
* keybind parsing and validation (`parse_keybind`, `validate_keybind`,
  identical in both variants),
* the mute actuator's device sweep and subscribe callback
  (`deviceSelected`, `sweep`, `subscribe_callback`, from
  `Controller::run` in `src/pulseaudio/mod.rs`).

Keysyms are modelled as natural numbers (`xkb::Keysym` is a wrapper
around `u32`; only equality is used by the program).
-/

/-- Key-chord tracker state, from the fields of `Controller` in
`src/libinput/mod.rs` (`first_key`, `first_key_pressed`, `second_key`,
`second_key_pressed`, `last_mute`); in `src/main.rs` the same data lives
in the captured cells of the `check_keybind` closure plus the `last_mute`
cell of `listen_libinput`. -/
structure Tracker where
  first_key : Nat
  first_key_pressed : Bool
  second_key : Option Nat
  second_key_pressed : Bool
  last_mute : Bool
deriving DecidableEq

/-- `Controller::update` (src/libinput/mod.rs 138-144): the guard
`Some(k) == self.second_key` is checked before `k == self.first_key`,
and unrecognized keys are ignored. Identical to the match inside the
`check_keybind` closure in `src/main.rs` 129-136. -/
def Tracker.update (t : Tracker) (key : Nat) (pressed : Bool) : Tracker :=
  if some key = t.second_key then { t with second_key_pressed := pressed }
  else if key = t.first_key then { t with first_key_pressed := pressed }
  else t

/-- `Controller::should_mute` (src/libinput/mod.rs 146-148):
`!first_key_pressed || second_key.is_some() && !second_key_pressed`.
Identical to the returned expression of `check_keybind` in `src/main.rs`. -/
def Tracker.should_mute (t : Tracker) : Bool :=
  !t.first_key_pressed || (t.second_key.isSome && !t.second_key_pressed)

/-- `Controller::handle` (src/libinput/mod.rs 112-136) restricted to a
keyboard event already decoded to `(keysym, pressed)`: update the flags,
recompute `should_mute`, and send it iff it differs from `last_mute`
(also updating `last_mute`). Identical to `event_handler` in
`src/main.rs` 215-243. The returned option is the decision sent on the
channel (`none` = nothing sent). -/
def Tracker.handle (t : Tracker) (key : Nat) (pressed : Bool) : Tracker × Option Bool :=
  let t1 := t.update key pressed
  let m := t1.should_mute
  if m ≠ t1.last_mute then ({ t1 with last_mute := m }, some m)
  else (t1, none)

/-- Folds `Tracker.handle` over a list of `(keysym, pressed)` events,
collecting the emitted decisions in order. -/
def runEvents : Tracker → List (Nat × Bool) → Tracker × List Bool
  | t, [] => (t, [])
  | t, e :: rest =>
    let (t1, d) := t.handle e.1 e.2
    let (t2, ds) := runEvents t1 rest
    (t2, (match d with | some m => [m] | none => []) ++ ds)

/-- Level changes of the predicate `should_mute` (i.e. "NOT all
configured keys currently pressed") along an event sequence, relative to
a previous level `prev`: after each event the chord flags evolve by
`Tracker.update`, and the new predicate value is recorded exactly when
it differs from the previous level. -/
def levelChangesFrom : Bool → Tracker → List (Nat × Bool) → List Bool
  | _, _, [] => []
  | prev, t, e :: rest =>
    let t1 := t.update e.1 e.2
    let m := t1.should_mute
    if m = prev then levelChangesFrom prev t1 rest
    else m :: levelChangesFrom m t1 rest

/-- Tracker state as built by `Controller::new` (src/libinput/mod.rs
47-54): both pressed flags `false` and `last_mute` initialized to
`Cell::new(false)`, for a parsed binding `first` / optional `second`. -/
def controllerNew (first : Nat) (second : Option Nat) : Tracker :=
  { first_key := first, first_key_pressed := false
  , second_key := second, second_key_pressed := false
  , last_mute := false }

/-- Tracker state as set up by `main`/`listen_libinput` in `src/main.rs`
(lines 117-120 and 168): both pressed flags `false` but `last_mute`
initialized to `Cell::new(true)`. -/
def listenLibinputInit (first : Nat) (second : Option Nat) : Tracker :=
  { controllerNew first second with last_mute := true }

/-- XKB keysym value of the key `space`. -/
def spaceKeysym : Nat := 32

/-- XKB keysym value of the key `Control_L`. -/
def controlLKeysym : Nat := 65507

section TrackerLemmas

/-- Updating with the same `(key, pressed)` twice equals updating once. -/
lemma update_idem (t : Tracker) (k : Nat) (p : Bool) :
    (t.update k p).update k p = t.update k p := by
  obtain ⟨fk, fp, sk, sp, lm⟩ := t
  simp only [Tracker.update]
  split_ifs <;> simp_all

/-- `should_mute` does not read `last_mute`. -/
lemma should_mute_set_last (t : Tracker) (b : Bool) :
    Tracker.should_mute { t with last_mute := b } = t.should_mute := rfl

/-- `update` commutes with overwriting `last_mute`. -/
lemma update_set_last (t : Tracker) (b : Bool) (k : Nat) (p : Bool) :
    Tracker.update { t with last_mute := b } k p = { t.update k p with last_mute := b } := by
  obtain ⟨fk, fp, sk, sp, lm⟩ := t
  simp only [Tracker.update]
  split_ifs <;> rfl

/-- A state fixed by `update` whose `last_mute` already agrees with its
`should_mute` handles the event silently and unchanged. -/
lemma handle_fixed (s : Tracker) (k : Nat) (p : Bool)
    (hupd : s.update k p = s) (hm : s.should_mute = s.last_mute) :
    s.handle k p = (s, none) := by
  unfold Tracker.handle
  simp [hupd, hm]

/-- `levelChangesFrom` does not read `last_mute`. -/
lemma levelChangesFrom_set_last (evs : List (Nat × Bool)) :
    ∀ (prev : Bool) (t : Tracker) (b : Bool),
      levelChangesFrom prev { t with last_mute := b } evs = levelChangesFrom prev t evs := by
  induction evs with
  | nil => intro prev t b; rfl
  | cons e rest ih =>
    intro prev t b
    simp only [levelChangesFrom, update_set_last, should_mute_set_last]
    split <;> rw [ih]

/-- The decisions emitted by the tracker over any event sequence are
exactly the level changes of the predicate `should_mute`, measured
relative to the tracker's stored `last_mute` value (not relative to the
predicate's actual initial level). -/
lemma runEvents_eq_levelChangesFrom (evs : List (Nat × Bool)) :
    ∀ t : Tracker, (runEvents t evs).2 = levelChangesFrom t.last_mute t evs := by
  induction evs with
  | nil => intro t; rfl
  | cons e rest ih =>
    intro t
    have hlast : (t.update e.1 e.2).last_mute = t.last_mute := by
      obtain ⟨fk, fp, sk, sp, lm⟩ := t
      simp only [Tracker.update]
      split_ifs <;> rfl
    simp only [runEvents, levelChangesFrom, Tracker.handle, hlast]
    by_cases h : (t.update e.1 e.2).should_mute = t.last_mute
    · simp [h, ih, hlast]
    · simp [h, ih, hlast, levelChangesFrom_set_last]

end TrackerLemmas

/-! ## The input worker's poll loop (`Controller::run`, src/libinput/mod.rs 75-108) -/

/-- Outcome of `libc::poll` as seen by the loop: success, or failure
with the reported `errno`. -/
inductive PollResult
  | ok
  | err (errno : Nat)
deriving DecidableEq

/-- `libc::EINTR`. -/
def EINTR : Nat := 4

/-- Shared state of one iteration of the input worker's loop in
`Controller::run` (src/libinput/mod.rs): the tracker cells, the local
`is_running` flag, and the `sig_pause` atomic set by the SIGUSR1
handler. -/
structure LoopState where
  tracker : Tracker
  is_running : Bool
  sig_pause : Bool
deriving DecidableEq

/-- Result of one loop iteration: the next state (`none` when the loop
returns the fatal poll error) and the decisions sent on the channel
during the iteration, in order. -/
structure StepOut where
  next : Option LoopState
  sent : List Bool
deriving DecidableEq

/-- One iteration of the loop of `Controller::run`
(src/libinput/mod.rs 75-108), given the poll outcome and the list of
keyboard events made available by `dispatch()` this iteration:
* poll failure with `EINTR` → `continue` (nothing read, nothing sent);
* any other poll failure → return the fatal error;
* otherwise, `sig_pause.swap(false)`: when it was set, toggle
  `is_running`, send `is_running` on the channel, and when resuming
  drain (`for_each(drop)`) the queued events;
* finally, iterate over the remaining events, handling each one only
  when `is_running`. -/
def run_iter (s : LoopState) (poll : PollResult) (incoming : List (Nat × Bool)) : StepOut :=
  match poll with
  | .err errno =>
    if errno = EINTR then { next := some s, sent := [] }
    else { next := none, sent := [] }
  | .ok =>
    let sig := s.sig_pause
    let running1 := if sig then !s.is_running else s.is_running
    let pauseSent := if sig then [running1] else []
    let queue := if sig && running1 then [] else incoming
    let (t2, ds) := if running1 then runEvents s.tracker queue else (s.tracker, [])
    { next := some { tracker := t2, is_running := running1, sig_pause := false }
    , sent := pauseSent ++ ds }

/-- Delivery of one SIGUSR1 signal: `signal_hook::flag::register` makes
each delivery store `true` into the shared `sig_pause` atomic
(registered by `register_signal` in `src/main.rs` 308-313). -/
def deliverSig (s : LoopState) : LoopState := { s with sig_pause := true }

/-! ## Keybind parsing and validation
(`parse_keybind` / `validate_keybind`, identical in src/libinput/mod.rs
151-173 and src/main.rs 280-306) -/

/-- `parse_keybind` over an already-split list of key names, abstracted
over the external `xkb::keysym_from_name` lookup `fromName` (which
returns the keysym `NoSymbol` for an unrecognized name, in particular
for the name `KEY_NoSymbol` itself): map every name through the lookup
and fail iff any result equals `fromName "KEY_NoSymbol"`. -/
def parse_keybind (fromName : String → Nat) (names : List String) : Except String (List Nat) :=
  let keybind := names.map fromName
  if keybind.any (fun k => k = fromName "KEY_NoSymbol") then
    Except.error "Unable to parse keybind"
  else
    Except.ok keybind

/-- `validate_keybind`: a parsed binding of length 1 or 2 is accepted,
any other length is an error. -/
def validate_keybind (keybind : List Nat) : Except String Unit :=
  match keybind.length with
  | 1 => Except.ok ()
  | 2 => Except.ok ()
  | n => Except.error ("Expected 1 or 2 keys for PUSH2TALK_KEYBIND, got " ++ toString n)

/-- Result of the startup prefix of `main` (src/main.rs 64-110): either
a fatal configuration error, or a validated binding with which the
workers are then spawned (`thread::spawn` for `set_sources` occurs only
after `parse_keybind` and `validate_keybind` have both succeeded; in the
modular variant `Controller::new` likewise runs both before `run`). -/
inductive StartupResult
  | fatal (msg : String)
  | started (keybind : List Nat)
deriving DecidableEq

/-- The startup sequencing of `main`: parse, then validate, then start
the workers. -/
def main_startup (fromName : String → Nat) (names : List String) : StartupResult :=
  match parse_keybind fromName names with
  | .error e => .fatal e
  | .ok kb =>
    match validate_keybind kb with
    | .error e => .fatal e
    | .ok _ => .started kb

/-- A small concrete instance of `xkb::keysym_from_name` used for
witnesses: the keysyms of the names appearing in the repository's own
tests, all other names unrecognized (`NoSymbol = 0`). -/
def xkbTable : String → Nat
  | "Control_L" => 65507
  | "Space" => 32
  | "O" => 111
  | "Shift_R" => 65506
  | _ => 0

/-! ## The mute actuator (`Controller::run`, src/pulseaudio/mod.rs) -/

/-- Substring containment on strings, decided on the underlying
character lists. Models Rust `str::contains` for a string pattern. -/
def strContains (s pat : String) : Bool := decide (pat.toList <:+: s.toList)

/-- The `toggle` computation in the `get_source_info_list` callback of
`Controller::run` (src/pulseaudio/mod.rs 93-99): with a configured
filter `some v`, a device is selected iff its description is present and
equals `v` exactly (`map_or(false, |d| v == d)`); with no filter, a
device is selected unless its lowercased description contains
"easy effects". The legacy `set_sources` (src/main.rs 340-357) uses the
same equality test with `None => true`. -/
def deviceSelected (source : Option String) (description : Option String) : Bool :=
  match source with
  | some v =>
    match description with
    | some d => v = d
    | none => false
  | none =>
    match description with
    | some d => !strContains d.toLower "easy effects"
    | none => true

/-- The fields of a pulseaudio source-info item read by the callback. -/
structure SourceInfo where
  index : Nat
  description : Option String
  active_port : Option String
deriving DecidableEq

/-- The device sweep performed for one received decision `mute`
(src/pulseaudio/mod.rs 85-110): for each enumerated source, if selected,
issue `set_source_mute_by_index(index, active_port.is_some() && mute)`.
The result lists the issued `(index, mute value)` requests in order. -/
def sweep (source : Option String) (mute : Bool) : List SourceInfo → List (Nat × Bool)
  | [] => []
  | src :: rest =>
    if deviceSelected source src.description then
      (src.index, src.active_port.isSome && mute) :: sweep source mute rest
    else
      sweep source mute rest

/-- The facilities of pulseaudio subscribe notifications
(`libpulse_binding::context::subscribe::Facility`). -/
inductive PAFacility
  | Sink
  | PASource
  | SinkInput
  | SourceOutput
  | Module
  | Client
  | SampleCache
  | Server
  | Card
deriving DecidableEq

/-- The operations of pulseaudio subscribe notifications. -/
inductive PAOperation
  | New
  | Changed
  | Removed
deriving DecidableEq

/-- What the subscribe callback put on which channel. -/
structure CbOut where
  exit_sent : Bool
  decision_sent : Option Bool
deriving DecidableEq

/-- The subscribe callback of `Controller::run`
(src/pulseaudio/mod.rs 64-83). `lock_result` models
`is_paused.lock()`: `none` for a poisoned lock (the `Err` arm, which
sends on the exit channel), `some b` for `Ok` with paused flag `b`.
Matching the source's arm order: a poisoned lock sends exit; while
paused nothing is sent; a `Card` facility with operation `Changed`,
`Removed` or `New` sends the constant decision `true` (mute); every
other notification sends nothing. -/
def subscribe_callback (lock_result : Option Bool) (facility : Option PAFacility)
    (operation : Option PAOperation) : CbOut :=
  match lock_result, facility, operation with
  | none, _, _ => { exit_sent := true, decision_sent := none }
  | some true, _, _ => { exit_sent := false, decision_sent := none }
  | some false, some .Card, some .Changed => { exit_sent := false, decision_sent := some true }
  | some false, some .Card, some .Removed => { exit_sent := false, decision_sent := some true }
  | some false, some .Card, some .New => { exit_sent := false, decision_sent := some true }
  | some false, _, _ => { exit_sent := false, decision_sent := none }

/-- The spec's notion of substring selection, stated independently of
the code: the filter occurs contiguously inside the description. -/
def IsSubstringOf (pat s : String) : Prop := ∃ pre suf, s = pre ++ pat ++ suf

/-- The first example capture device of the spec's device-filter test. -/
def builtinMic : SourceInfo :=
  { index := 0, description := some "Built-in Microphone"
  , active_port := some "analog-input-internal-mic" }

/-- The second example capture device of the spec's device-filter test. -/
def usbHeadsetMic : SourceInfo :=
  { index := 1, description := some "USB Headset Mic"
  , active_port := some "analog-input-headset-mic" }

/-- A capture device whose `active_port` is absent. -/
def headsetNoPort : SourceInfo :=
  { index := 2, description := some "USB Headset Mic", active_port := none }

/-- A tracker for the default binding `Control_L,Space` in the muted
steady state (chord not held, mute last sent). -/
def steadyMuted : Tracker :=
  { controllerNew controlLKeysym (some spaceKeysym) with last_mute := true }

/-- A tracker for the default binding whose first key was held when the
daemon got paused. -/
def halfChordPaused : Tracker :=
  { controllerNew controlLKeysym (some spaceKeysym) with
      first_key_pressed := true, last_mute := true }

/-! ## Claim theorems -/

/-- C1 (code bug evidence): the tracker of `Controller::new`
(src/libinput/mod.rs) initializes `last_mute := false` although `run`
has just sent mute (`true`) on the channel, so its decision sequence is
not the level-change sequence of "NOT all configured keys pressed".
With the single-key binding `[space]`, the event press(space) is
restricted to binding keys (conjunct 1), makes every configured key
pressed, and changes the predicate's level from true to false — the
level-change sequence is `[false]` (unmute, conjunct 3) — yet the code
emits no decision at all (conjunct 2): the microphone stays muted while
the chord is held. The legacy initialization `last_mute := true` of
`src/main.rs` (`listenLibinputInit`) emits exactly the level change
(conjunct 4). With the default two-key binding, pressing `Control_L`
alone emits a spurious mute decision (conjunct 5) although the
predicate's level does not change (conjunct 6), contradicting the
spec's end-to-end example. -/
theorem c1_tracker_divergence_eval :
    (spaceKeysym, true).1 = (controllerNew spaceKeysym none).first_key ∧
    (runEvents (controllerNew spaceKeysym none) [(spaceKeysym, true)]).2 = [] ∧
    levelChangesFrom (controllerNew spaceKeysym none).should_mute
      (controllerNew spaceKeysym none) [(spaceKeysym, true)] = [false] ∧
    (runEvents (listenLibinputInit spaceKeysym none) [(spaceKeysym, true)]).2 = [false] ∧
    (runEvents (controllerNew controlLKeysym (some spaceKeysym))
      [(controlLKeysym, true)]).2 = [true] ∧
    levelChangesFrom (controllerNew controlLKeysym (some spaceKeysym)).should_mute
      (controllerNew controlLKeysym (some spaceKeysym)) [(controlLKeysym, true)] = [] := by
  decide

/-- C9: processing the same `(key, pressed)` event twice in a row is
idempotent and silent: whatever the tracker state, immediately handling
the identical event again leaves the state (chord flags and `last_mute`)
unchanged and emits no decision. -/
theorem c9_repeated_event_idempotent (t : Tracker) (k : Nat) (p : Bool) :
    Tracker.handle (t.handle k p).1 k p = ((t.handle k p).1, none) := by
  by_cases h : (t.update k p).should_mute = (t.update k p).last_mute
  · have h1 : t.handle k p = (t.update k p, none) := by
      unfold Tracker.handle
      simp [h]
    rw [h1]
    exact handle_fixed _ _ _ (update_idem t k p) h
  · have h1 : t.handle k p =
        ({ t.update k p with last_mute := (t.update k p).should_mute },
          some (t.update k p).should_mute) := by
      unfold Tracker.handle
      simp [h]
    rw [h1]
    apply handle_fixed
    · rw [update_set_last, update_idem]
    · rw [should_mute_set_last]

/-- C2 (counterexample): the configured filter "Headset" is a substring
of the description "USB Headset Mic", so the claim says the device is
selected — but the code's selection test is exact equality
(`v == d` in src/pulseaudio/mod.rs 94 and src/main.rs 347) and rejects
it. -/
theorem c2_substring_filter_counterexample :
    deviceSelected (some "Headset") (some "USB Headset Mic") = false ∧
    IsSubstringOf "Headset" "USB Headset Mic" := by
  refine ⟨by decide, "USB ", " Mic", ?_⟩
  decide

/-- C2 (amended): with a configured filter, a capture device is selected
iff the filter equals the device's description exactly (conjunct 1).
Consequently, over the descriptions ["Built-in Microphone",
"USB Headset Mic"], the filters "Headset", "Mic" and "Nonexistent" all
select no device, and only the full description "USB Headset Mic"
selects the second device. -/
theorem c2_exact_description_match (v d : String) :
    deviceSelected (some v) (some d) = decide (v = d) ∧
    sweep (some "Headset") true [builtinMic, usbHeadsetMic] = [] ∧
    sweep (some "Mic") true [builtinMic, usbHeadsetMic] = [] ∧
    sweep (some "Nonexistent") true [builtinMic, usbHeadsetMic] = [] ∧
    sweep (some "USB Headset Mic") true [builtinMic, usbHeadsetMic] = [(1, true)] := by
  exact ⟨rfl, by decide, by decide, by decide, by decide⟩

/-- Every selected device of the enumeration receives exactly the mute
request `(index, active_port.is_some() && mute)`. -/
lemma mem_sweep (source : Option String) (mute : Bool) (src : SourceInfo)
    (hsel : deviceSelected source src.description = true) :
    ∀ devices : List SourceInfo, src ∈ devices →
      (src.index, src.active_port.isSome && mute) ∈ sweep source mute devices := by
  intro devices
  induction devices with
  | nil => intro h; cases h
  | cons d rest ih =>
    intro h
    rcases List.mem_cons.mp h with h | h
    · subst h
      simp [sweep, hsel]
    · by_cases hd : deviceSelected source d.description
      · simpa [sweep, hd] using Or.inr (ih h)
      · simpa [sweep, hd] using ih h

/-- C10: for every decision `mute` received by the actuator and every
selected device of the enumeration, the mute value actually applied is
`active_port.is_some() && mute`; in particular a selected device whose
`active_port` is absent is set to unmuted (`false`) even when the
received decision is mute. -/
theorem c10_active_port_gate (source : Option String) (mute : Bool)
    (devices : List SourceInfo) (src : SourceInfo)
    (hmem : src ∈ devices) (hsel : deviceSelected source src.description = true) :
    (src.index, src.active_port.isSome && mute) ∈ sweep source mute devices ∧
    (src.active_port = none → (src.index, false) ∈ sweep source mute devices) := by
  refine ⟨mem_sweep source mute src hsel devices hmem, fun hnone => ?_⟩
  have := mem_sweep source mute src hsel devices hmem
  rwa [hnone] at this

/-- C10 witness: a device with description "USB Headset Mic" and no
active port, swept with decision mute under the matching filter, is set
to unmuted. -/
theorem c10_active_port_gate_witness :
    ((2 : Nat), false) ∈ sweep (some "USB Headset Mic") true [headsetNoPort] :=
  (c10_active_port_gate (some "USB Headset Mic") true [headsetNoPort] headsetNoPort
    (by decide) (by decide)).2 rfl

/-- C3 (counterexample): suppose the most recently emitted decision is
unmute (`false`, the chord is held). A card "New" notification arriving
while not paused makes the subscribe callback send `some true` — the
constant mute — not the last decision `some false`, refuting the claim
that the last decision is re-sent. -/
theorem c3_topology_resend_counterexample :
    (subscribe_callback (some false) (some .Card) (some .New)).decision_sent = some true ∧
    some true ≠ (some false : Option Bool) := by
  decide

/-- C3 (amended): on every card add, remove or change notification
received while not paused, the subscribe callback sends the constant
decision mute (`true`) on the decision channel, independent of whatever
decision was last emitted; while paused, any notification sends
nothing. -/
theorem c3_card_event_sends_constant_mute :
    (∀ (facility : Option PAFacility) (operation : Option PAOperation),
      subscribe_callback (some true) facility operation =
        { exit_sent := false, decision_sent := none }) ∧
    (∀ operation : PAOperation,
      subscribe_callback (some false) (some .Card) (some operation) =
        { exit_sent := false, decision_sent := some true }) := by
  constructor
  · intro facility operation
    rfl
  · intro operation
    cases operation <;> rfl

/-- C4 (counterexample): a loop iteration that observes the pause
signal while running sends the decision `false` (unmute) on the
decision channel — the sent list is `[false]`, not `[]` — refuting the
claim that a Running→Paused transition sends nothing and freezes the
mute state. -/
theorem c4_pause_counterexample :
    run_iter { tracker := steadyMuted, is_running := true, sig_pause := true } .ok [] =
      { next := some { tracker := steadyMuted, is_running := false, sig_pause := false }
      , sent := [false] } ∧
    [false] ≠ ([] : List Bool) := by
  decide

/-- C4 (amended): on every Running→Paused transition the input worker
sends the decision unmute (`false`) on the decision channel
(`tx.send(is_running)` in src/libinput/mod.rs 96): pausing forces
unmute rather than freezing the mute state. The tracker cells —
including the stored `last_mute` — are left unchanged, and nothing else
is sent in that iteration. -/
theorem c4_pause_sends_unmute (s : LoopState) (incoming : List (Nat × Bool))
    (hrun : s.is_running = true) (hsig : s.sig_pause = true) :
    run_iter s .ok incoming =
      { next := some { tracker := s.tracker, is_running := false, sig_pause := false }
      , sent := [false] } := by
  simp [run_iter, hrun, hsig]

/-- C4 witness: instance of `c4_pause_sends_unmute` at a concrete
muted steady state. -/
theorem c4_pause_sends_unmute_witness :
    run_iter { tracker := steadyMuted, is_running := true, sig_pause := true } .ok
        [(spaceKeysym, true)] =
      { next := some { tracker := steadyMuted, is_running := false, sig_pause := false }
      , sent := [false] } :=
  c4_pause_sends_unmute _ [(spaceKeysym, true)] rfl rfl

/-- C5 (counterexample): resuming from pause with the first key of the
chord still flagged pressed (it was held when the daemon paused) leaves
that flag set: the post-resume chord state is not "nothing pressed",
refuting that part of the claim. -/
theorem c5_flags_not_reset_counterexample :
    (run_iter { tracker := halfChordPaused, is_running := false, sig_pause := true }
        .ok []).next =
      some { tracker := halfChordPaused, is_running := true, sig_pause := false } ∧
    halfChordPaused.first_key_pressed = true := by
  decide

/-- C5 (amended): on every Paused→Running transition, all input events
queued in the resume iteration are drained and discarded
(`for_each(drop)` in src/libinput/mod.rs 100) and events delivered
during paused iterations are likewise never handled, so no decision is
derived from events that occurred while paused — the tracker is
untouched by them; however the chord pressed-flags are not reset: the
post-resume tracker equals the pre-pause tracker (the resume toggle
additionally sends `true` on the channel). -/
theorem c5_resume_drains_but_keeps_flags (s : LoopState) (incoming : List (Nat × Bool))
    (hrun : s.is_running = false) :
    (s.sig_pause = true →
      run_iter s .ok incoming =
        { next := some { tracker := s.tracker, is_running := true, sig_pause := false }
        , sent := [true] }) ∧
    (s.sig_pause = false →
      run_iter s .ok incoming =
        { next := some { tracker := s.tracker, is_running := false, sig_pause := false }
        , sent := [] }) := by
  constructor <;> intro hsig <;> simp [run_iter, runEvents, hrun, hsig]

/-- C5 witness: instance of `c5_resume_drains_but_keeps_flags` at a
concrete half-pressed chord with an event queued during the pause. -/
theorem c5_resume_drains_witness :
    run_iter { tracker := halfChordPaused, is_running := false, sig_pause := true } .ok
        [(spaceKeysym, true)] =
      { next := some { tracker := halfChordPaused, is_running := true, sig_pause := false }
      , sent := [true] } :=
  (c5_resume_drains_but_keeps_flags _ [(spaceKeysym, true)] rfl).1 rfl

/-- N deliveries of SIGUSR1 (N ≥ 1) leave the shared flag simply set. -/
lemma iterate_deliverSig : ∀ (N : Nat) (s : LoopState),
    deliverSig^[N + 1] s = { s with sig_pause := true } := by
  intro N
  induction N with
  | zero => intro s; rfl
  | succ n ih =>
    intro s
    rw [Function.iterate_succ_apply, ih (deliverSig s)]
    rfl

/-- C6: N deliveries of the pause signal (N ≥ 1) between two
observation points of the flag (so the flag starts clear) coalesce into
exactly one Running/Paused flip: the next loop iteration toggles
`is_running` to its negation, clears the flag, and leaves the tracker
unchanged — regardless of N. -/
theorem c6_pause_coalescing (s : LoopState) (N : Nat) (hN : 1 ≤ N)
    (hsig : s.sig_pause = false) :
    run_iter (deliverSig^[N] s) .ok [] =
      { next := some { tracker := s.tracker, is_running := !s.is_running, sig_pause := false }
      , sent := [!s.is_running] } := by
  obtain ⟨n, rfl⟩ : ∃ n, N = n + 1 := ⟨N - 1, by omega⟩
  rw [iterate_deliverSig]
  cases hr : s.is_running <;> simp [run_iter, runEvents]

/-- C6 witness: three deliveries before one observation cause exactly
one flip, from Running to Paused. -/
theorem c6_pause_coalescing_witness :
    run_iter (deliverSig^[3] { tracker := steadyMuted, is_running := true, sig_pause := false })
        .ok [] =
      { next := some { tracker := steadyMuted, is_running := false, sig_pause := false }
      , sent := [false] } :=
  c6_pause_coalescing { tracker := steadyMuted, is_running := true, sig_pause := false } 3
    (by decide) rfl

/-- C8: in the input worker's steady-state loop, a poll failure with
`errno = EINTR` makes the iteration `continue`: the loop goes on with
the state unchanged and nothing sent; a poll failure with any other
errno makes the loop return the fatal error (`next = none`). -/
theorem c8_poll_eintr_retry (s : LoopState) (errno : Nat) (incoming : List (Nat × Bool)) :
    (errno = EINTR → run_iter s (.err errno) incoming = { next := some s, sent := [] }) ∧
    (errno ≠ EINTR → run_iter s (.err errno) incoming = { next := none, sent := [] }) := by
  constructor <;> intro h <;> simp [run_iter, h]

/-- C8 witness: EINTR (4) is retried with the state intact; EAGAIN (11)
is fatal. -/
theorem c8_poll_eintr_retry_witness :
    run_iter { tracker := steadyMuted, is_running := true, sig_pause := false } (.err 4) [] =
      { next := some { tracker := steadyMuted, is_running := true, sig_pause := false }
      , sent := [] } ∧
    run_iter { tracker := steadyMuted, is_running := true, sig_pause := false } (.err 11) [] =
      { next := none, sent := [] } :=
  ⟨(c8_poll_eintr_retry _ 4 []).1 rfl, (c8_poll_eintr_retry _ 11 []).2 (by decide)⟩

/-- Closed form of the startup sequencing: parse failure dominates,
then the length check decides. -/
lemma main_startup_eq (fromName : String → Nat) (names : List String) :
    main_startup fromName names =
      if (names.map fromName).any (fun k => k = fromName "KEY_NoSymbol") then
        .fatal "Unable to parse keybind"
      else if names.length = 1 ∨ names.length = 2 then
        .started (names.map fromName)
      else
        .fatal ("Expected 1 or 2 keys for PUSH2TALK_KEYBIND, got " ++
          toString names.length) := by
  unfold main_startup parse_keybind validate_keybind
  by_cases hbad : (names.map fromName).any (fun k => k = fromName "KEY_NoSymbol") = true
  · simp [hbad]
  · rw [if_neg hbad, if_neg hbad]
    dsimp only
    rw [List.length_map]
    rcases hl : names.length with _ | _ | _ | n
    · rw [if_neg (by omega)]
    · rw [if_pos (by omega)]
    · rw [if_pos (by omega)]
    · rw [if_neg (by omega)]
      rfl

/-- C7: over an abstract `xkb::keysym_from_name` lookup, startup fails
(fatally, before any worker is marked started) iff some configured name
is unrecognized (its keysym equals the one of the invalid name
"KEY_NoSymbol") or the list's length is 0 or at least 3; and for every
list of 1 or 2 recognized names, startup succeeds and starts the
workers with the parsed binding. -/
theorem c7_keybind_validation (fromName : String → Nat) (names : List String) :
    ((∃ e, main_startup fromName names = .fatal e) ↔
      ((∃ n ∈ names, fromName n = fromName "KEY_NoSymbol") ∨
        names.length = 0 ∨ 3 ≤ names.length)) ∧
    ((∀ n ∈ names, fromName n ≠ fromName "KEY_NoSymbol") →
      (names.length = 1 ∨ names.length = 2) →
      main_startup fromName names = .started (names.map fromName)) := by
  have hbad_iff : ((names.map fromName).any (fun k => k = fromName "KEY_NoSymbol") = true)
      ↔ (∃ n ∈ names, fromName n = fromName "KEY_NoSymbol") := by
    rw [List.any_eq_true]
    constructor
    · rintro ⟨x, hx, hxc⟩
      obtain ⟨n, hn, rfl⟩ := List.mem_map.mp hx
      exact ⟨n, hn, by simpa using hxc⟩
    · rintro ⟨n, hn, hc⟩
      exact ⟨fromName n, List.mem_map.mpr ⟨n, hn, rfl⟩, by simpa using hc⟩
  rw [main_startup_eq]
  by_cases hbad : (names.map fromName).any (fun k => k = fromName "KEY_NoSymbol") = true
  · rw [if_pos hbad]
    have hex := hbad_iff.mp hbad
    refine ⟨⟨fun _ => Or.inl hex, fun _ => ⟨_, rfl⟩⟩, fun hrec _ => ?_⟩
    obtain ⟨n, hn, he⟩ := hex
    exact absurd he (hrec n hn)
  · rw [if_neg hbad]
    have hnex : ¬ (∃ n ∈ names, fromName n = fromName "KEY_NoSymbol") :=
      fun hx => hbad (hbad_iff.mpr hx)
    by_cases hlen : names.length = 1 ∨ names.length = 2
    · rw [if_pos hlen]
      refine ⟨⟨fun h => ?_, fun h => ?_⟩, fun _ _ => rfl⟩
      · obtain ⟨e, he⟩ := h
        cases he
      · rcases h with h | h | h
        · exact absurd h hnex
        · omega
        · omega
    · rw [if_neg hlen]
      refine ⟨⟨fun _ => ?_, fun _ => ⟨_, rfl⟩⟩, fun _ hl => absurd hl hlen⟩
      right
      omega

/-- C7 witness: the default binding `Control_L,Space` parses and
validates, starting the workers; realized over the concrete lookup
table of the repository's tests. -/
theorem c7_keybind_validation_witness :
    main_startup xkbTable ["Control_L", "Space"] = .started [65507, 32] :=
  (c7_keybind_validation xkbTable ["Control_L", "Space"]).2 (by decide) (by decide)
